import Mathlib

/-!
Verification development for the openanalyst-proxy translation engine.

The definitions below are a shallow embedding of the TypeScript sources:
  * response-translator (translateResponse, translateError, createStreamState,
    translateStreamChunk, createResponseCreatedEvent, createResponseInProgressEvent)
  * request-translator (mapModelName, convertInputToMessages, convertContent,
    convertTools, translateRequest, validateRequest)
  * server (handleStreamingRequest)

Modelling conventions:
  * JavaScript `undefined`/`null`/optional fields become `Option`.
  * JavaScript truthiness on strings is `s ≠ ""` on present strings.
  * Nondeterministic identifier generation (generateId) and wall-clock reads
    (Date.now) are passed in as explicit parameters.
  * Constant discriminator fields of payload objects (object: "response",
    type: "message", role: "assistant", type: "output_text") are omitted,
    being fixed literals carried by the constructor shape instead.
  * Numeric JSON payloads that no code path inspects are carried as integers.
  * Thrown exceptions become `Except String`.
-/

namespace CodexProxy

/-- Usage counters of a Responses API payload (input_tokens / output_tokens /
total_tokens). -/
structure RespUsage where
  input_tokens : Nat
  output_tokens : Nat
  total_tokens : Nat
deriving DecidableEq, Repr

/-- One output_text content part of an output message. -/
structure OutputTextPart where
  text : String
deriving DecidableEq, Repr

/-- An output message item. `status` is `some` in output_item events (where the
source sets "in_progress" or "completed") and `none` in the final response
output, where the source object carries no status field. -/
structure MessageItem where
  id : String
  content : List OutputTextPart
  status : Option String
deriving DecidableEq, Repr

/-- The error envelope of a failed Responses API response. -/
structure ErrorEnvelope where
  code : String
  message : String
deriving DecidableEq, Repr

/-- A Responses API response body, as built by translateResponse,
translateError and the streaming terminal events. -/
structure ResponsesResponse where
  id : String
  created_at : Nat
  model : String
  status : String
  output : List MessageItem
  usage : RespUsage
  error : Option ErrorEnvelope
deriving DecidableEq, Repr

/-- Delta fragment of one upstream streaming choice; `content` is optional. -/
structure ChatDelta where
  content : Option String
deriving DecidableEq, Repr

/-- One choice of an upstream streaming chunk. -/
structure ChatStreamChoice where
  delta : ChatDelta
  finish_reason : Option String
deriving DecidableEq, Repr

/-- An upstream streaming chunk. The source also carries id/object/created/model
fields on each chunk; translateStreamChunk never reads them, so they are
omitted here. -/
structure ChatStreamChunk where
  choices : List ChatStreamChoice
deriving DecidableEq, Repr

/-- The eleven stream event shapes emitted to the consumer, a closed sum as the
source builds them (each constructor carries exactly the payload fields the
source attaches to that event type). -/
inductive StreamEvent where
  | created (response : ResponsesResponse)
  | in_progress (response : ResponsesResponse)
  | output_item_added (output_index : Nat) (item : MessageItem)
  | content_part_added (output_index : Nat) (content_index : Nat) (part : OutputTextPart)
  | output_text_delta (output_index : Nat) (content_index : Nat) (delta : String)
  | output_text_done (output_index : Nat) (content_index : Nat) (text : String)
  | content_part_done (output_index : Nat) (content_index : Nat) (part : OutputTextPart)
  | output_item_done (output_index : Nat) (item : MessageItem)
  | completed (response : ResponsesResponse)
  | done (response : ResponsesResponse)
  | error (code : String) (message : String)
deriving DecidableEq, Repr

/-- The event tag alone, for stating ordering properties. -/
inductive EventTag where
  | created
  | in_progress
  | output_item_added
  | content_part_added
  | output_text_delta
  | output_text_done
  | content_part_done
  | output_item_done
  | completed
  | done
  | error
deriving DecidableEq, Repr

/-- Tag of a stream event. -/
def eventTag : StreamEvent → EventTag
  | .created _ => .created
  | .in_progress _ => .in_progress
  | .output_item_added _ _ => .output_item_added
  | .content_part_added _ _ _ => .content_part_added
  | .output_text_delta _ _ _ => .output_text_delta
  | .output_text_done _ _ _ => .output_text_done
  | .content_part_done _ _ _ => .content_part_done
  | .output_item_done _ _ => .output_item_done
  | .completed _ => .completed
  | .done _ => .done
  | .error _ _ => .error

/-- The per-exchange synthesis context (StreamState in the source). -/
structure StreamState where
  responseId : String
  messageId : String
  contentPartId : String
  model : String
  createdAt : Nat
  accumulatedText : String
  inputTokens : Nat
  outputTokens : Nat
  hasStartedOutput : Bool
  hasAddedContentPart : Bool
deriving DecidableEq, Repr

/-- createStreamState. The three generated identifiers and the creation
timestamp are nondeterministic in the source (generateId, Date.now) and are
passed in as parameters here. -/
def createStreamState (model responseId messageId contentPartId : String)
    (createdAt : Nat) : StreamState :=
  { responseId := responseId
    messageId := messageId
    contentPartId := contentPartId
    model := model
    createdAt := createdAt
    accumulatedText := ""
    inputTokens := 0
    outputTokens := 0
    hasStartedOutput := false
    hasAddedContentPart := false }

/-- mapFinishReasonToStatus: stop / length / tool_calls map to completed,
content_filter to failed, anything else (null included) to completed. -/
def mapFinishReasonToStatus (finishReason : Option String) : String :=
  match finishReason with
  | some "stop" => "completed"
  | some "length" => "completed"
  | some "tool_calls" => "completed"
  | some "content_filter" => "failed"
  | _ => "completed"

/-- The output_item.added / content_part.added pair pushed when output opens. -/
def openingEvents (state : StreamState) : List StreamEvent :=
  [ .output_item_added 0
      { id := state.messageId, content := [], status := some "in_progress" },
    .content_part_added 0 0 { text := "" } ]

/-- The final response object built inside the finish branch of
translateStreamChunk. -/
def finalResponse (state : StreamState) (finishReason : String) : ResponsesResponse :=
  { id := state.responseId
    created_at := state.createdAt
    model := state.model
    status := mapFinishReasonToStatus (some finishReason)
    output := [ { id := state.messageId
                  content := [ { text := state.accumulatedText } ]
                  status := none } ]
    usage := { input_tokens := state.inputTokens
               output_tokens := state.outputTokens
               total_tokens := state.inputTokens + state.outputTokens }
    error := none }

/-- The five terminal events pushed by the finish branch of
translateStreamChunk, in source order. -/
def terminalEvents (state : StreamState) (finishReason : String) : List StreamEvent :=
  [ .output_text_done 0 0 state.accumulatedText,
    .content_part_done 0 0 { text := state.accumulatedText },
    .output_item_done 0
      { id := state.messageId
        content := [ { text := state.accumulatedText } ]
        status := some "completed" },
    .completed (finalResponse state finishReason),
    .done (finalResponse state finishReason) ]

/-- translateStreamChunk. The source mutates `state` in place and returns the
event list; here the updated state is returned alongside the events. The
control flow mirrors the source: take choices[0] (no choice: no events); on a
truthy content delta push the opening pair first if output has not started
(setting both booleans), append to accumulatedText and push the delta event;
on a truthy finish_reason push the opening pair if output has still not
started (setting only hasStartedOutput, as the source does there), then the
five terminal events. -/
def translateStreamChunk (chunk : ChatStreamChunk) (state : StreamState) :
    List StreamEvent × StreamState :=
  match chunk.choices.head? with
  | none => ([], state)
  | some choice =>
    let step1 : List StreamEvent × StreamState :=
      match choice.delta.content with
      | some c =>
        if c = "" then ([], state)
        else
          let pre : List StreamEvent × StreamState :=
            if state.hasStartedOutput then ([], state)
            else (openingEvents state,
                  { state with hasStartedOutput := true, hasAddedContentPart := true })
          let st := pre.2
          let st2 := { st with accumulatedText := st.accumulatedText ++ c }
          (pre.1 ++ [.output_text_delta 0 0 c], st2)
      | none => ([], state)
    let events1 := step1.1
    let state1 := step1.2
    match choice.finish_reason with
    | none => (events1, state1)
    | some r =>
      let fin : List StreamEvent × StreamState :=
        if state1.hasStartedOutput then ([], state1)
        else (openingEvents state1, { state1 with hasStartedOutput := true })
      (events1 ++ fin.1 ++ terminalEvents fin.2 r, fin.2)

/-- createResponseCreatedEvent. -/
def createResponseCreatedEvent (state : StreamState) : StreamEvent :=
  .created
    { id := state.responseId
      created_at := state.createdAt
      model := state.model
      status := "in_progress"
      output := []
      usage := { input_tokens := 0, output_tokens := 0, total_tokens := 0 }
      error := none }

/-- createResponseInProgressEvent. -/
def createResponseInProgressEvent (state : StreamState) : StreamEvent :=
  .in_progress
    { id := state.responseId
      created_at := state.createdAt
      model := state.model
      status := "in_progress"
      output := []
      usage := { input_tokens := 0, output_tokens := 0, total_tokens := 0 }
      error := none }

/-- Sequential processing of a chunk list, threading the state, concatenating
events — the body of the for-await loop in handleStreamingRequest. -/
def processChunks (chunks : List ChatStreamChunk) (state : StreamState) :
    List StreamEvent × StreamState :=
  match chunks with
  | [] => ([], state)
  | c :: rest =>
    let step := translateStreamChunk c state
    let next := processChunks rest step.2
    (step.1 ++ next.1, next.2)

/-- The synthetic chunk the server feeds to translateStreamChunk when the
upstream stream ends and hasStartedOutput is still false (delta content ""
and finish_reason "stop", as built inline in server.ts). -/
def syntheticFinishChunk : ChatStreamChunk :=
  { choices := [ { delta := { content := some "" }, finish_reason := some "stop" } ] }

/-- handleStreamingRequest from server.ts, modelled over one upstream outcome:
the list of chunks the upstream iterator delivered before either closing
normally (`streamError = none`) or raising a transport error
(`streamError = some m`, where `m = some msg` when the thrown value was an
Error with that message and `m = none` otherwise). The handler writes the
created and in_progress events, the translation of every delivered chunk in
order, and then either the single error event (code "stream_error") or — only
when `hasStartedOutput` is still false — the translation of the synthetic
finish chunk. -/
def handleStreamingRequest (model responseId messageId contentPartId : String)
    (createdAt : Nat) (chunks : List ChatStreamChunk)
    (streamError : Option (Option String)) : List StreamEvent :=
  let state0 := createStreamState model responseId messageId contentPartId createdAt
  let startEvents :=
    [createResponseCreatedEvent state0, createResponseInProgressEvent state0]
  let run := processChunks chunks state0
  startEvents ++ run.1 ++
    match streamError with
    | some errMessage =>
      [.error "stream_error" (errMessage.getD "Unknown streaming error")]
    | none =>
      if !run.2.hasStartedOutput then (translateStreamChunk syntheticFinishChunk run.2).1
      else []

/-- finish_reason carried by a chunk (that of choices[0], none when the chunk
has no choices). -/
def chunkFinish (chunk : ChatStreamChunk) : Option String :=
  match chunk.choices.head? with
  | some choice => choice.finish_reason
  | none => none

/-- Content fragment carried by a chunk, with absent choice or absent content
read as the empty string; the fragment is acted on exactly when it is
non-empty (JavaScript truthiness). -/
def chunkContentStr (chunk : ChatStreamChunk) : String :=
  match chunk.choices.head? with
  | some choice => choice.delta.content.getD ""
  | none => ""

/-- Number of chunks carrying a non-empty content fragment. -/
def deltaCount (chunks : List ChatStreamChunk) : Nat :=
  chunks.countP (fun c => chunkContentStr c ≠ "")

/-! ## Non-streaming response translation -/

/-- Usage statistics of an upstream chat completion. -/
structure ChatUsage where
  prompt_tokens : Nat
  completion_tokens : Nat
  total_tokens : Nat
deriving DecidableEq, Repr

/-- The assistant message of one upstream choice. The upstream type also
admits structured multi-part content, which the source serializes with
JSON.stringify; no claim depends on that branch, so content is carried as an
optional string (absent or null content reads as ""). -/
structure ChatRespMessage where
  content : Option String
deriving DecidableEq, Repr

/-- One choice of an upstream chat completion. -/
structure ChatChoice where
  message : ChatRespMessage
  finish_reason : Option String
deriving DecidableEq, Repr

/-- An upstream chat completion response. The source reads usage through
optional chaining, so it is carried as an Option here. -/
structure ChatCompletionsResponse where
  created : Nat
  model : String
  choices : List ChatChoice
  usage : Option ChatUsage
deriving DecidableEq, Repr

/-- normalizeModelName: strip the provider namespace when present, keeping the
whole string when the part after the last slash is empty (the source falls
back with a truthiness check on pop()). -/
def normalizeModelName (model : String) : String :=
  if model.contains '/' then
    match (model.splitOn "/").getLast? with
    | some last => if last = "" then model else last
    | none => model
  else model

/-- translateResponse. The two generated identifiers are parameters (see
createStreamState); the original model string is optional and replaced by the
normalized upstream echo when absent or empty (JavaScript truthiness of the
`originalModel` argument). Throws when choices is empty. -/
def translateResponse (chatResponse : ChatCompletionsResponse)
    (originalModel : Option String) (responseId messageId : String) :
    Except String ResponsesResponse :=
  match chatResponse.choices.head? with
  | none => .error "No choices in response from OpenRouter"
  | some choice =>
    let assistantContent := choice.message.content.getD ""
    .ok
      { id := responseId
        created_at := chatResponse.created
        model :=
          match originalModel with
          | some m => if m = "" then normalizeModelName chatResponse.model else m
          | none => normalizeModelName chatResponse.model
        status := mapFinishReasonToStatus choice.finish_reason
        output := [ { id := messageId
                      content := [ { text := assistantContent } ]
                      status := none } ]
        usage := { input_tokens := (chatResponse.usage.map (·.prompt_tokens)).getD 0
                   output_tokens := (chatResponse.usage.map (·.completion_tokens)).getD 0
                   total_tokens := (chatResponse.usage.map (·.total_tokens)).getD 0 }
        error := none }

/-- The discriminated shapes translateError distinguishes on its `unknown`
argument: an Error instance, an object carrying a nested error envelope
(message, type, optional code), or anything else. -/
inductive CaughtError where
  | jsError (message : String)
  | apiError (message : String) (typ : String) (code : Option String)
  | other
deriving DecidableEq, Repr

/-- JavaScript `a || b` on an optional string: the fallback is taken when the
value is absent or empty. -/
def jsStringOr (value : Option String) (fallback : String) : String :=
  match value with
  | some s => if s = "" then fallback else s
  | none => fallback

/-- translateError. Generated id and Date.now are parameters as elsewhere. -/
def translateError (err : CaughtError) (responseId : String) (createdAt : Nat) :
    ResponsesResponse :=
  let errorMessage :=
    match err with
    | .jsError message => message
    | .apiError message _ _ => message
    | .other => "Unknown error occurred"
  let errorCode :=
    match err with
    | .jsError _ => "internal_error"
    | .apiError _ typ code => jsStringOr code (jsStringOr (some typ) "api_error")
    | .other => "internal_error"
  { id := responseId
    created_at := createdAt
    model := "unknown"
    status := "failed"
    output := []
    usage := { input_tokens := 0, output_tokens := 0, total_tokens := 0 }
    error := some { code := errorCode, message := errorMessage } }

/-! ## Request validation and translation -/

/-- A JSON-like value, for the untyped request payload validateRequest
receives. Numeric payloads are carried as integers; no code path under
verification inspects a numeric value. -/
inductive JsonVal where
  | str (s : String)
  | num (n : Int)
  | bool (b : Bool)
  | null
  | arr (items : List JsonVal)
  | obj (fields : List (String × JsonVal))

/-- JavaScript truthiness of a JSON value. -/
def jsTruthy : JsonVal → Bool
  | .str s => s != ""
  | .num n => n != 0
  | .bool b => b
  | .null => false
  | .arr _ => true
  | .obj _ => true

/-- Whether `typeof v === "object"` holds in JavaScript (true for objects,
arrays and null). -/
def jsTypeofObject : JsonVal → Bool
  | .obj _ => true
  | .arr _ => true
  | .null => true
  | _ => false

/-- Property read: `undefined` (none) except on an object carrying the key. -/
def jsGet (value : JsonVal) (key : String) : Option JsonVal :=
  match value with
  | .obj fields => (fields.find? (fun f => f.1 == key)).map (·.2)
  | _ => none

/-- Truthiness of a possibly-undefined property. -/
def jsTruthyOpt : Option JsonVal → Bool
  | some v => jsTruthy v
  | none => false

/-- Whether a possibly-undefined property is a string. -/
def isStringOpt : Option JsonVal → Bool
  | some (.str _) => true
  | _ => false

/-- Whether a possibly-undefined property is an array. -/
def isArrayOpt : Option JsonVal → Bool
  | some (.arr _) => true
  | _ => false

/-- Whether a possibly-undefined property is undefined or null. -/
def isMissingOrNull : Option JsonVal → Bool
  | none => true
  | some .null => true
  | _ => false

/-- validateRequest: the four guard clauses of the source in order, returning
the payload unchanged on success. -/
def validateRequest (request : JsonVal) : Except String JsonVal :=
  if !jsTruthy request || !jsTypeofObject request then
    .error "Request body must be a JSON object"
  else if !jsTruthyOpt (jsGet request "model") || !isStringOpt (jsGet request "model") then
    .error "The model field is required and must be a string"
  else if isMissingOrNull (jsGet request "input") then
    .error "The input field is required"
  else if !isStringOpt (jsGet request "input") && !isArrayOpt (jsGet request "input") then
    .error "The input field must be a string or an array of messages"
  else
    .ok request

/-- One typed content part of an inbound turn (type, optional text, optional
image_url). -/
structure ResponsesContentPart where
  type : String
  text : Option String
  image_url : Option String
deriving DecidableEq, Repr

/-- Content of one inbound turn: a plain string or typed parts. -/
inductive InboundContent where
  | str (s : String)
  | parts (ps : List ResponsesContentPart)
deriving DecidableEq, Repr

/-- One role-tagged inbound turn. -/
structure ResponsesInputMessage where
  role : String
  content : InboundContent
deriving DecidableEq, Repr

/-- The inbound input: a single string or an ordered turn list. -/
inductive RequestInput where
  | str (s : String)
  | messages (msgs : List ResponsesInputMessage)
deriving DecidableEq, Repr

/-- A function declaration inside a tool (name, optional description, optional
parameter schema). -/
structure ToolFunctionDef where
  name : String
  description : Option String
  parameters : Option JsonVal

/-- An inbound tool declaration, tagged by capability type, optionally
carrying a function declaration. -/
structure ResponsesTool where
  type : String
  function : Option ToolFunctionDef

/-- An outbound tool (always type "function" in the source; the constant
discriminator is omitted). -/
structure ChatTool where
  function : ToolFunctionDef

/-- An outbound content part, one of the two shapes convertContent builds. -/
inductive ChatContentPart where
  | text (text : String)
  | image_url (url : String)
deriving DecidableEq, Repr

/-- Content of one outbound message. -/
inductive ChatMessageContent where
  | str (s : String)
  | parts (ps : List ChatContentPart)
deriving DecidableEq, Repr

/-- One outbound chat message. -/
structure ChatMessage where
  role : String
  content : ChatMessageContent
deriving DecidableEq, Repr

/-- An inbound Responses API request, after validation. -/
structure ResponsesAPIRequest where
  model : String
  input : RequestInput
  instructions : Option String
  temperature : Option Int
  max_output_tokens : Option Nat
  top_p : Option Int
  tools : Option (List ResponsesTool)
  tool_choice : Option JsonVal
  stream : Option Bool

/-- The outbound chat completions request built by translateRequest. A field
the source never assigns stays `none` (serialized requests omit it). -/
structure ChatCompletionsRequest where
  model : String
  messages : List ChatMessage
  temperature : Option Int
  max_tokens : Option Nat
  top_p : Option Int
  stream : Option Bool
  tools : Option (List ChatTool)
  tool_choice : Option JsonVal

/-- The static short-name table MODEL_MAP. -/
def MODEL_MAP : List (String × String) :=
  [ ("gpt-4o", "openai/gpt-4o"),
    ("gpt-4o-mini", "openai/gpt-4o-mini"),
    ("gpt-4-turbo", "openai/gpt-4-turbo"),
    ("gpt-4", "openai/gpt-4"),
    ("gpt-3.5-turbo", "openai/gpt-3.5-turbo"),
    ("o1", "openai/o1"),
    ("o1-mini", "openai/o1-mini"),
    ("o1-preview", "openai/o1-preview"),
    ("o3-mini", "openai/o3-mini"),
    ("claude-3-5-sonnet", "anthropic/claude-3.5-sonnet"),
    ("claude-3.5-sonnet", "anthropic/claude-3.5-sonnet"),
    ("claude-3-opus", "anthropic/claude-3-opus"),
    ("claude-3-sonnet", "anthropic/claude-3-sonnet"),
    ("claude-3-haiku", "anthropic/claude-3-haiku"),
    ("llama-3.1-70b", "meta-llama/llama-3.1-70b-instruct"),
    ("llama-3.1-8b", "meta-llama/llama-3.1-8b-instruct"),
    ("llama-3.2-90b", "meta-llama/llama-3.2-90b-vision-instruct"),
    ("gemini-pro", "google/gemini-pro"),
    ("gemini-1.5-pro", "google/gemini-pro-1.5"),
    ("gemini-1.5-flash", "google/gemini-flash-1.5"),
    ("mistral-large", "mistralai/mistral-large"),
    ("mistral-medium", "mistralai/mistral-medium"),
    ("mixtral-8x7b", "mistralai/mixtral-8x7b-instruct") ]

/-- mapModelName: passthrough when a namespace separator is present, else the
static table on the lowercased name, else the default openai namespace. -/
def mapModelName (model : String) : String :=
  if model.contains '/' then model
  else
    match (MODEL_MAP.find? (fun p => p.1 == model.toLower)).map (·.2) with
    | some mapped => mapped
    | none => "openai/" ++ model

/-- The conversion of one typed inbound part inside the loop of
convertContent: input_text parts with truthy text become text parts,
input_image parts with truthy image_url become image parts, everything else
is dropped. -/
def convertPart (part : ResponsesContentPart) : Option ChatContentPart :=
  if part.type == "input_text" then
    match part.text with
    | some t => if t = "" then none else some (.text t)
    | none => none
  else if part.type == "input_image" then
    match part.image_url with
    | some u => if u = "" then none else some (.image_url u)
    | none => none
  else none

/-- convertContent. -/
def convertContent (content : InboundContent) : ChatMessageContent :=
  match content with
  | .str s => .str s
  | .parts ps => .parts (ps.filterMap convertPart)

/-- convertInputToMessages: optional leading system message (truthy
instructions only), then the single user message for a string input or the
converted turns for a turn list. -/
def convertInputToMessages (input : RequestInput) (instructions : Option String) :
    List ChatMessage :=
  let lead : List ChatMessage :=
    match instructions with
    | some i =>
      if i = "" then [] else [ { role := "system", content := .str i } ]
    | none => []
  match input with
  | .str s => lead ++ [ { role := "user", content := .str s } ]
  | .messages msgs =>
    lead ++ msgs.map (fun m => { role := m.role, content := convertContent m.content })

/-- Whether a declared tool survives the function filter of convertTools
(type "function" with a truthy function object). -/
def functionCapable (tool : ResponsesTool) : Bool :=
  tool.type == "function" && tool.function.isSome

/-- convertTools: warn-and-drop of unsupported built-ins has no effect on the
result; keep only function tools, returning undefined (none) when that set is
empty, else the 1:1 conversion. -/
def convertTools (tools : List ResponsesTool) : Option (List ChatTool) :=
  let functionTools := tools.filter functionCapable
  if functionTools.isEmpty then none
  else
    some (functionTools.filterMap (fun t =>
      t.function.map (fun f =>
        { function := { name := f.name
                        description := f.description
                        parameters := f.parameters } })))

/-- translateRequest. Optional inbound fields pass through (max_output_tokens
renamed to max_tokens); tools are converted only when the declared list is
present and non-empty, and convertTools may itself yield none. -/
def translateRequest (responsesRequest : ResponsesAPIRequest) : ChatCompletionsRequest :=
  { model := mapModelName responsesRequest.model
    messages := convertInputToMessages responsesRequest.input responsesRequest.instructions
    temperature := responsesRequest.temperature
    max_tokens := responsesRequest.max_output_tokens
    top_p := responsesRequest.top_p
    stream := responsesRequest.stream
    tools :=
      match responsesRequest.tools with
      | some ts => if ts.length > 0 then convertTools ts else none
      | none => none
    tool_choice := responsesRequest.tool_choice }

/-! ## Derived vocabulary used by the statements -/

/-- Concatenation of the content fragments of a chunk list, in order. -/
def concatContents (chunks : List ChatStreamChunk) : String :=
  match chunks with
  | [] => ""
  | c :: rest => chunkContentStr c ++ concatContents rest

/-- The event tags a finish-free chunk run starting from a fresh context
produces: nothing when no chunk carried content, else the opening pair
followed by one delta tag per content-carrying chunk. -/
def openTagsFor (k : Nat) : List EventTag :=
  if k = 0 then []
  else .output_item_added :: .content_part_added :: List.replicate k .output_text_delta

/-- The response identifier an event carries, when its payload has one. -/
def eventRespId : StreamEvent → Option String
  | .created r => some r.id
  | .in_progress r => some r.id
  | .completed r => some r.id
  | .done r => some r.id
  | _ => none

/-- Whether every identifier an event carries (response id on response-bearing
events, message id on item payloads, including the items inside a
response-bearing payload) is the given pair. -/
def eventUsesIds (rid mid : String) : StreamEvent → Bool
  | .created r => r.id == rid && r.output.all (fun item => item.id == mid)
  | .in_progress r => r.id == rid && r.output.all (fun item => item.id == mid)
  | .completed r => r.id == rid && r.output.all (fun item => item.id == mid)
  | .done r => r.id == rid && r.output.all (fun item => item.id == mid)
  | .output_item_added _ item => item.id == mid
  | .output_item_done _ item => item.id == mid
  | _ => true

/-- Whether a terminal completed/done event reports all-zero usage counters
(vacuously true on every other event). -/
def terminalUsageZero : StreamEvent → Bool
  | .completed r =>
    r.usage.input_tokens == 0 && r.usage.output_tokens == 0 && r.usage.total_tokens == 0
  | .done r =>
    r.usage.input_tokens == 0 && r.usage.output_tokens == 0 && r.usage.total_tokens == 0
  | _ => true

/-- finish_reason of the first choice of a non-streaming upstream response. -/
def chatFirstFinish (chatResponse : ChatCompletionsResponse) : Option String :=
  match chatResponse.choices.head? with
  | some choice => choice.finish_reason
  | none => none

/-- Whether a JSON value is an object or an array (the payload shapes that
pass the combined truthiness and typeof guards of validateRequest). -/
def isObjOrArr : JsonVal → Bool
  | .obj _ => true
  | .arr _ => true
  | _ => false

/-- Whether the model property of a payload is a non-empty string (what the
model guard of validateRequest actually accepts). -/
def modelFieldOk (v : JsonVal) : Bool :=
  match jsGet v "model" with
  | some (.str m) => m != ""
  | _ => false

/-- Whether the input property of a payload is a string or an array. -/
def inputFieldOk (v : JsonVal) : Bool :=
  match jsGet v "input" with
  | some (.str _) => true
  | some (.arr _) => true
  | _ => false

/-! ## Step lemmas for the stream synthesizer -/

theorem translateStreamChunk_noop (c : ChatStreamChunk) (s : StreamState)
    (hf : chunkFinish c = none) (hc : chunkContentStr c = "") :
    translateStreamChunk c s = ([], s) := by
  unfold translateStreamChunk chunkFinish chunkContentStr at *
  match h : c.choices.head? with
  | none => simp [h]
  | some choice =>
    simp only [h] at hf hc ⊢
    match hcont : choice.delta.content with
    | none => simp [hcont, hf]
    | some str =>
      simp only [hcont, Option.getD_some] at hc
      simp [hcont, hc, hf]

theorem translateStreamChunk_delta_notStarted (c : ChatStreamChunk) (s : StreamState)
    (hf : chunkFinish c = none) (hc : chunkContentStr c ≠ "")
    (hs : s.hasStartedOutput = false) :
    translateStreamChunk c s =
      (openingEvents s ++ [.output_text_delta 0 0 (chunkContentStr c)],
       { s with hasStartedOutput := true, hasAddedContentPart := true,
                accumulatedText := s.accumulatedText ++ chunkContentStr c }) := by
  unfold translateStreamChunk chunkFinish chunkContentStr at *
  match h : c.choices.head? with
  | none => simp [h] at hc
  | some choice =>
    simp only [h] at hf hc ⊢
    match hcont : choice.delta.content with
    | none => simp [hcont] at hc
    | some str =>
      simp only [hcont, Option.getD_some] at hc ⊢
      simp [hcont, hc, hf, hs]

theorem translateStreamChunk_delta_started (c : ChatStreamChunk) (s : StreamState)
    (hf : chunkFinish c = none) (hc : chunkContentStr c ≠ "")
    (hs : s.hasStartedOutput = true) :
    translateStreamChunk c s =
      ([.output_text_delta 0 0 (chunkContentStr c)],
       { s with accumulatedText := s.accumulatedText ++ chunkContentStr c }) := by
  unfold translateStreamChunk chunkFinish chunkContentStr at *
  match h : c.choices.head? with
  | none => simp [h] at hc
  | some choice =>
    simp only [h] at hf hc ⊢
    match hcont : choice.delta.content with
    | none => simp [hcont] at hc
    | some str =>
      simp only [hcont, Option.getD_some] at hc ⊢
      simp [hcont, hc, hf, hs]

theorem translateStreamChunk_finish_started (c : ChatStreamChunk) (s : StreamState)
    (r : String) (hf : chunkFinish c = some r) (hs : s.hasStartedOutput = true) :
    translateStreamChunk c s =
      (if chunkContentStr c = "" then (terminalEvents s r, s)
       else
        (.output_text_delta 0 0 (chunkContentStr c) ::
          terminalEvents { s with accumulatedText := s.accumulatedText ++ chunkContentStr c } r,
         { s with accumulatedText := s.accumulatedText ++ chunkContentStr c })) := by
  unfold translateStreamChunk chunkFinish chunkContentStr at *
  match h : c.choices.head? with
  | none => simp [h] at hf
  | some choice =>
    simp only [h] at hf ⊢
    match hcont : choice.delta.content with
    | none => simp [hcont, hf, hs]
    | some str =>
      simp only [hcont, Option.getD_some]
      by_cases hstr : str = ""
      · simp [hcont, hf, hs, hstr]
      · simp [hcont, hf, hs, hstr]

theorem translateStreamChunk_finish_notStarted (c : ChatStreamChunk) (s : StreamState)
    (r : String) (hf : chunkFinish c = some r) (hs : s.hasStartedOutput = false) :
    translateStreamChunk c s =
      (if chunkContentStr c = "" then
        (openingEvents s ++ terminalEvents { s with hasStartedOutput := true } r,
         { s with hasStartedOutput := true })
       else
        (openingEvents s ++ .output_text_delta 0 0 (chunkContentStr c) ::
          terminalEvents
            { s with hasStartedOutput := true, hasAddedContentPart := true,
                     accumulatedText := s.accumulatedText ++ chunkContentStr c } r,
         { s with hasStartedOutput := true, hasAddedContentPart := true,
                  accumulatedText := s.accumulatedText ++ chunkContentStr c })) := by
  unfold translateStreamChunk chunkFinish chunkContentStr at *
  match h : c.choices.head? with
  | none => simp [h] at hf
  | some choice =>
    simp only [h] at hf ⊢
    match hcont : choice.delta.content with
    | none => simp [hcont, hf, hs, openingEvents]
    | some str =>
      simp only [hcont, Option.getD_some]
      by_cases hstr : str = ""
      · simp [hcont, hf, hs, hstr, openingEvents]
      · simp [hcont, hf, hs, hstr, openingEvents]

/-- Processing a finish chunk always leaves hasStartedOutput set. -/
theorem finish_sets_started (c : ChatStreamChunk) (s : StreamState) (r : String)
    (hf : chunkFinish c = some r) :
    (translateStreamChunk c s).2.hasStartedOutput = true := by
  by_cases hs : s.hasStartedOutput
  · rw [translateStreamChunk_finish_started c s r hf hs]
    by_cases hco : chunkContentStr c = "" <;> simp [hco, hs]
  · rw [translateStreamChunk_finish_notStarted c s r hf (by simpa using hs)]
    by_cases hco : chunkContentStr c = "" <;> simp [hco]

/-- translateStreamChunk touches none of the seven context fields outside
accumulatedText, hasStartedOutput and hasAddedContentPart. -/
theorem translateStreamChunk_frame (c : ChatStreamChunk) (s : StreamState) :
    (translateStreamChunk c s).2.responseId = s.responseId
    ∧ (translateStreamChunk c s).2.messageId = s.messageId
    ∧ (translateStreamChunk c s).2.contentPartId = s.contentPartId
    ∧ (translateStreamChunk c s).2.model = s.model
    ∧ (translateStreamChunk c s).2.createdAt = s.createdAt
    ∧ (translateStreamChunk c s).2.inputTokens = s.inputTokens
    ∧ (translateStreamChunk c s).2.outputTokens = s.outputTokens := by
  match hf : chunkFinish c with
  | none =>
    by_cases hc : chunkContentStr c = ""
    · rw [translateStreamChunk_noop c s hf hc]
      exact ⟨rfl, rfl, rfl, rfl, rfl, rfl, rfl⟩
    · by_cases hs : s.hasStartedOutput
      · rw [translateStreamChunk_delta_started c s hf hc hs]
        exact ⟨rfl, rfl, rfl, rfl, rfl, rfl, rfl⟩
      · rw [translateStreamChunk_delta_notStarted c s hf hc (by simpa using hs)]
        exact ⟨rfl, rfl, rfl, rfl, rfl, rfl, rfl⟩
  | some r =>
    by_cases hs : s.hasStartedOutput
    · rw [translateStreamChunk_finish_started c s r hf hs]
      by_cases hco : chunkContentStr c = "" <;>
        simp [hco]
    · rw [translateStreamChunk_finish_notStarted c s r hf (by simpa using hs)]
      by_cases hco : chunkContentStr c = "" <;>
        simp [hco]

/-- Event/state decomposition of a run over an appended chunk list. -/
theorem processChunks_append (xs ys : List ChatStreamChunk) (s : StreamState) :
    processChunks (xs ++ ys) s =
      ((processChunks xs s).1 ++ (processChunks ys (processChunks xs s).2).1,
       (processChunks ys (processChunks xs s).2).2) := by
  induction xs generalizing s with
  | nil => simp [processChunks]
  | cons c rest ih =>
    simp only [List.cons_append, processChunks, List.append_eq]
    rw [ih (translateStreamChunk c s).2]
    simp [List.append_assoc]

/-- A run over a single chunk is that chunk's translation. -/
theorem processChunks_singleton (c : ChatStreamChunk) (s : StreamState) :
    processChunks [c] s = ((translateStreamChunk c s).1, (translateStreamChunk c s).2) := by
  simp [processChunks]

theorem concatContents_cons (c : ChatStreamChunk) (rest : List ChatStreamChunk) :
    concatContents (c :: rest) = chunkContentStr c ++ concatContents rest := rfl

theorem deltaCount_cons (c : ChatStreamChunk) (rest : List ChatStreamChunk) :
    deltaCount (c :: rest) =
      deltaCount rest + if chunkContentStr c ≠ "" then 1 else 0 := by
  simp [deltaCount, List.countP_cons]

/-- A finish-free run from a context with output already started: one delta
event per content-carrying chunk, and the only context change is the
appended accumulated text. -/
theorem run_nofinish_started (cs : List ChatStreamChunk) (s : StreamState)
    (h : ∀ c ∈ cs, chunkFinish c = none) (hs : s.hasStartedOutput = true) :
    ((processChunks cs s).1.map eventTag
        = List.replicate (deltaCount cs) EventTag.output_text_delta)
    ∧ (processChunks cs s).2
        = { s with accumulatedText := s.accumulatedText ++ concatContents cs } := by
  induction cs generalizing s with
  | nil =>
    refine ⟨by simp [processChunks, deltaCount], ?_⟩
    simp [processChunks, concatContents, String.append_empty]
  | cons c rest ih =>
    have hf : chunkFinish c = none := h c (List.mem_cons_self c rest)
    have hrest : ∀ x ∈ rest, chunkFinish x = none :=
      fun x hx => h x (List.mem_cons_of_mem c hx)
    by_cases hc : chunkContentStr c = ""
    · have step := translateStreamChunk_noop c s hf hc
      have ihs := ih s hrest hs
      constructor
      · simp only [processChunks, step]
        rw [deltaCount_cons]
        simp [ihs.1, hc]
      · simp only [processChunks, step]
        rw [ihs.2, concatContents_cons, hc, String.empty_append]
    · have step := translateStreamChunk_delta_started c s hf hc hs
      have ihs := ih { s with accumulatedText := s.accumulatedText ++ chunkContentStr c }
        hrest (by simp [hs])
      constructor
      · simp only [processChunks, step]
        rw [deltaCount_cons]
        simp [ihs.1, hc, List.replicate_succ, Nat.add_comm, eventTag]
      · simp only [processChunks, step]
        rw [ihs.2, concatContents_cons]
        simp [String.append_assoc]

/-- A finish-free run from a fresh (not yet started) context: no events at
all when no chunk carries content, else the opening pair then the deltas,
with both booleans set and the content fragments accumulated. -/
theorem run_nofinish_notStarted (cs : List ChatStreamChunk) (s : StreamState)
    (h : ∀ c ∈ cs, chunkFinish c = none) (hs : s.hasStartedOutput = false) :
    ((processChunks cs s).1.map eventTag = openTagsFor (deltaCount cs))
    ∧ (processChunks cs s).2
        = (if deltaCount cs = 0 then s
           else { s with hasStartedOutput := true, hasAddedContentPart := true,
                         accumulatedText := s.accumulatedText ++ concatContents cs }) := by
  induction cs generalizing s with
  | nil =>
    refine ⟨by simp [processChunks, deltaCount, openTagsFor], ?_⟩
    simp [processChunks, deltaCount]
  | cons c rest ih =>
    have hf : chunkFinish c = none := h c (List.mem_cons_self c rest)
    have hrest : ∀ x ∈ rest, chunkFinish x = none :=
      fun x hx => h x (List.mem_cons_of_mem c hx)
    by_cases hc : chunkContentStr c = ""
    · have step := translateStreamChunk_noop c s hf hc
      have ihs := ih s hrest hs
      constructor
      · simp only [processChunks, step]
        rw [deltaCount_cons]
        simp [ihs.1, hc]
      · simp only [processChunks, step]
        rw [ihs.2, deltaCount_cons, concatContents_cons, hc, String.empty_append]
        simp
    · have step := translateStreamChunk_delta_notStarted c s hf hc (by simpa using hs)
      have ihs := run_nofinish_started rest
        { s with hasStartedOutput := true, hasAddedContentPart := true,
                 accumulatedText := s.accumulatedText ++ chunkContentStr c }
        hrest (by simp)
      constructor
      · simp only [processChunks, step]
        rw [deltaCount_cons]
        simp only [List.map_append, ihs.1]
        simp [openingEvents, eventTag, openTagsFor, hc, List.replicate_succ, Nat.add_comm]
      · simp only [processChunks, step]
        rw [ihs.2, deltaCount_cons, concatContents_cons]
        simp [hc, String.append_assoc]

/-! ## Counting and concatenation helpers -/

theorem deltaCount_append (xs ys : List ChatStreamChunk) :
    deltaCount (xs ++ ys) = deltaCount xs + deltaCount ys := by
  simp [deltaCount, List.countP_append]

theorem deltaCount_singleton (c : ChatStreamChunk) :
    deltaCount [c] = if chunkContentStr c ≠ "" then 1 else 0 := by
  simp [deltaCount, List.countP_cons]

theorem concatContents_append (xs ys : List ChatStreamChunk) :
    concatContents (xs ++ ys) = concatContents xs ++ concatContents ys := by
  induction xs with
  | nil => simp [concatContents, String.empty_append]
  | cons c rest ih => simp [concatContents, ih, String.append_assoc]

theorem concatContents_eq_empty (cs : List ChatStreamChunk)
    (h : deltaCount cs = 0) : concatContents cs = "" := by
  induction cs with
  | nil => rfl
  | cons c rest ih =>
    rw [deltaCount_cons] at h
    by_cases hc : chunkContentStr c = ""
    · rw [concatContents_cons, hc, String.empty_append]
      exact ih (by simpa [hc] using h)
    · simp [hc] at h

theorem openingEvents_tags (s : StreamState) :
    (openingEvents s).map eventTag = [.output_item_added, .content_part_added] := rfl

theorem terminalEvents_tags (s : StreamState) (r : String) :
    (terminalEvents s r).map eventTag =
      [.output_text_done, .content_part_done, .output_item_done, .completed, .done] := rfl

/-- Tag/text summary of translating a finish chunk against any context:
opening pair exactly when output had not started, one delta tag exactly when
the chunk carries content, then the five terminal tags; the accumulated text
always grows by the content fragment. -/
theorem finish_step_tags (c : ChatStreamChunk) (sp : StreamState) (r : String)
    (hc : chunkFinish c = some r) :
    ((translateStreamChunk c sp).1.map eventTag
      = (if sp.hasStartedOutput then []
         else [EventTag.output_item_added, EventTag.content_part_added])
        ++ (if chunkContentStr c = "" then [] else [EventTag.output_text_delta])
        ++ [.output_text_done, .content_part_done, .output_item_done, .completed, .done])
    ∧ (translateStreamChunk c sp).2.accumulatedText
        = sp.accumulatedText ++ chunkContentStr c := by
  by_cases hs : sp.hasStartedOutput
  · rw [translateStreamChunk_finish_started c sp r hc hs]
    by_cases hmc : chunkContentStr c = "" <;>
      simp [hmc, hs, openingEvents, terminalEvents, eventTag, String.append_empty]
  · rw [translateStreamChunk_finish_notStarted c sp r hc (by simpa using hs)]
    by_cases hmc : chunkContentStr c = "" <;>
      simp [hmc, hs, openingEvents, terminalEvents, eventTag, String.append_empty]

theorem replicate_append_cons {α : Type} (k : Nat) (x : α) (l : List α) :
    List.replicate k x ++ x :: l = x :: (List.replicate k x ++ l) := by
  induction k with
  | zero => simp
  | succ n ih => simp [List.replicate_succ, ih]

/-! ## Claim theorems -/

/-- C1: for every finite upstream chunk sequence in which only the final
chunk carries a non-null finish reason, the streamed exchange emits exactly
the tag sequence created, in_progress, output_item.added, content_part.added,
one output_text.delta per non-empty content delta, output_text.done,
content_part.done, output_item.done, completed, done; and the accumulated
text is the concatenation of the content fragments (so "" when the very
first chunk already finishes with no content). -/
theorem claim_C1_stream_order (model rid mid cid : String) (t : Nat)
    (cs : List ChatStreamChunk) (c : ChatStreamChunk) (r : String)
    (h : ∀ ch ∈ cs, chunkFinish ch = none) (hc : chunkFinish c = some r) :
    ((handleStreamingRequest model rid mid cid t (cs ++ [c]) none).map eventTag
      = [.created, .in_progress, .output_item_added, .content_part_added]
        ++ List.replicate (deltaCount (cs ++ [c])) EventTag.output_text_delta
        ++ [.output_text_done, .content_part_done, .output_item_done, .completed, .done])
    ∧ (processChunks (cs ++ [c]) (createStreamState model rid mid cid t)).2.accumulatedText
        = concatContents (cs ++ [c]) := by
  have pre := run_nofinish_notStarted cs (createStreamState model rid mid cid t) h rfl
  have happ := processChunks_append cs [c] (createStreamState model rid mid cid t)
  have hrun1 : (processChunks (cs ++ [c]) (createStreamState model rid mid cid t)).1
      = (processChunks cs (createStreamState model rid mid cid t)).1
        ++ (translateStreamChunk c
              (processChunks cs (createStreamState model rid mid cid t)).2).1 := by
    rw [happ, processChunks_singleton]
  have hrun2 : (processChunks (cs ++ [c]) (createStreamState model rid mid cid t)).2
      = (translateStreamChunk c
          (processChunks cs (createStreamState model rid mid cid t)).2).2 := by
    rw [happ, processChunks_singleton]
  have hstarted : (processChunks (cs ++ [c])
      (createStreamState model rid mid cid t)).2.hasStartedOutput = true := by
    rw [hrun2]
    exact finish_sets_started c _ r hc
  have fin := finish_step_tags c
    (processChunks cs (createStreamState model rid mid cid t)).2 r hc
  have hhandler : handleStreamingRequest model rid mid cid t (cs ++ [c]) none
      = [createResponseCreatedEvent (createStreamState model rid mid cid t),
         createResponseInProgressEvent (createStreamState model rid mid cid t)]
        ++ (processChunks (cs ++ [c]) (createStreamState model rid mid cid t)).1 := by
    simp [handleStreamingRequest, hstarted]
  have hcount : deltaCount (cs ++ [c])
      = deltaCount cs + if chunkContentStr c ≠ "" then 1 else 0 := by
    rw [deltaCount_append, deltaCount_singleton]
  constructor
  · rw [hhandler, hrun1]
    simp only [List.map_append, List.map_cons, List.map_nil, fin.1, pre.1, hcount]
    by_cases hk : deltaCount cs = 0
    · have hsp : (processChunks cs (createStreamState model rid mid cid t)).2
          = createStreamState model rid mid cid t := by
        rw [pre.2]
        simp [hk]
      rw [hsp]
      by_cases hmc : chunkContentStr c = "" <;>
        simp [hk, hmc, openTagsFor, eventTag, createResponseCreatedEvent,
          createResponseInProgressEvent, createStreamState]
    · have hsp : (processChunks cs (createStreamState model rid mid cid t)).2.hasStartedOutput
          = true := by
        rw [pre.2]
        simp [hk]
      rw [hsp]
      by_cases hmc : chunkContentStr c = "" <;>
        simp [hk, hmc, openTagsFor, eventTag, createResponseCreatedEvent,
          createResponseInProgressEvent, List.replicate_succ, List.replicate_add,
          replicate_append_cons]
  · rw [hrun2, fin.2, concatContents_append, concatContents_cons]
    by_cases hk : deltaCount cs = 0
    · have hsp : (processChunks cs (createStreamState model rid mid cid t)).2
          = createStreamState model rid mid cid t := by
        rw [pre.2]
        simp [hk]
      rw [hsp, concatContents_eq_empty cs hk]
      simp [concatContents, createStreamState, String.empty_append, String.append_empty]
    · have hsp : (processChunks cs (createStreamState model rid mid cid t)).2.accumulatedText
          = concatContents cs := by
        rw [pre.2]
        simp [hk, createStreamState, String.empty_append]
      rw [hsp]
      simp [concatContents, String.append_empty]

/-- Witness for C1 at the empty-stream scenario: the very first chunk already
carries the finish reason and no content. -/
theorem claim_C1_stream_order_witness :
    ((handleStreamingRequest "gpt-4o" "resp_1" "msg_1" "cp_1" 0
        ([] ++ [ { choices :=
          [ { delta := { content := none }, finish_reason := some "stop" } ] } ]) none).map
            eventTag
      = [.created, .in_progress, .output_item_added, .content_part_added]
        ++ List.replicate
            (deltaCount ([] ++ [ { choices :=
              [ { delta := { content := none }, finish_reason := some "stop" } ] } ]))
            EventTag.output_text_delta
        ++ [.output_text_done, .content_part_done, .output_item_done, .completed, .done])
    ∧ (processChunks
        ([] ++ [ { choices :=
          [ { delta := { content := none }, finish_reason := some "stop" } ] } ])
        (createStreamState "gpt-4o" "resp_1" "msg_1" "cp_1" 0)).2.accumulatedText
        = concatContents ([] ++ [ { choices :=
            [ { delta := { content := none }, finish_reason := some "stop" } ] } ]) :=
  claim_C1_stream_order "gpt-4o" "resp_1" "msg_1" "cp_1" 0 []
    { choices := [ { delta := { content := none }, finish_reason := some "stop" } ] }
    "stop" (by simp) rfl

/-- C2 counterexample: after one finish chunk has been processed, processing
the same finish chunk again is not a no-op — it emits events (among them a
second done). -/
theorem claim_C2_counterexample :
    ((translateStreamChunk
        { choices := [ { delta := { content := none }, finish_reason := some "stop" } ] }
        ((translateStreamChunk
            { choices := [ { delta := { content := none }, finish_reason := some "stop" } ] }
            (createStreamState "gpt-4o" "resp_1" "msg_1" "cp_1" 0)).2)).1 ≠ [])
    ∧ ((translateStreamChunk
        { choices := [ { delta := { content := none }, finish_reason := some "stop" } ] }
        ((translateStreamChunk
            { choices := [ { delta := { content := none }, finish_reason := some "stop" } ] }
            (createStreamState "gpt-4o" "resp_1" "msg_1" "cp_1" 0)).2)).1.map eventTag).count
        EventTag.done = 1 := by
  constructor
  · decide
  · rfl

/-- C2 amended: after a finish chunk has been processed, chunks carrying
neither a finish reason nor content are no-ops on events and context, but the
context is not terminated — a further finish chunk emits the terminal events
again, done included. -/
theorem claim_C2_terminated_amended (c0 : ChatStreamChunk) (s : StreamState)
    (r : String) (h : chunkFinish c0 = some r) :
    (∀ c, chunkFinish c = none → chunkContentStr c = "" →
        translateStreamChunk c (translateStreamChunk c0 s).2
          = ([], (translateStreamChunk c0 s).2))
    ∧ (∀ c r2, chunkFinish c = some r2 →
        ((translateStreamChunk c (translateStreamChunk c0 s).2).1.map eventTag).count
            EventTag.done = 1) := by
  have hstart : (translateStreamChunk c0 s).2.hasStartedOutput = true :=
    finish_sets_started c0 s r h
  constructor
  · intro c hf hce
    exact translateStreamChunk_noop c _ hf hce
  · intro c r2 hf2
    rw [(finish_step_tags c (translateStreamChunk c0 s).2 r2 hf2).1]
    by_cases hmc : chunkContentStr c = "" <;> simp [hstart, hmc]

/-- Witness for the amended C2: two consecutive finish chunks, the second
still yielding a done event. -/
theorem claim_C2_terminated_amended_witness :
    ((translateStreamChunk
        { choices := [ { delta := { content := some "" }, finish_reason := some "stop" } ] }
        ((translateStreamChunk
            { choices := [ { delta := { content := none }, finish_reason := some "stop" } ] }
            (createStreamState "gpt-4o" "resp_2" "msg_2" "cp_2" 7)).2)).1.map eventTag).count
        EventTag.done = 1 :=
  (claim_C2_terminated_amended
    { choices := [ { delta := { content := none }, finish_reason := some "stop" } ] }
    (createStreamState "gpt-4o" "resp_2" "msg_2" "cp_2" 7) "stop" rfl).2
    { choices := [ { delta := { content := some "" }, finish_reason := some "stop" } ] }
    "stop" rfl

/-- C3 failing input: a stream that delivered one content delta and then
closed without a finish reason. The handler emits no terminal tail at all —
the synthesized-stop fallback is guarded by hasStartedOutput instead of by
termination, contradicting both the specification and the source comment
above the fallback. -/
theorem claim_C3_silent_end_failing_input :
    (handleStreamingRequest "gpt-4o" "resp_1" "msg_1" "cp_1" 0
        [ { choices := [ { delta := { content := some "Hi" }, finish_reason := none } ] } ]
        none).map eventTag
      = [.created, .in_progress, .output_item_added, .content_part_added,
         .output_text_delta] := rfl

theorem count_openTagsFor (k : Nat) (x : EventTag)
    (h1 : x ≠ .output_item_added) (h2 : x ≠ .content_part_added)
    (h3 : x ≠ .output_text_delta) : (openTagsFor k).count x = 0 := by
  unfold openTagsFor
  by_cases hk : k = 0
  · simp [hk]
  · simp [hk, List.count_cons, h1, h2, h3, List.count_replicate, Ne.symm h1, Ne.symm h2,
      Ne.symm h3]

/-- C4: a transport error raised before any finish reason was seen yields the
start events, the usual opening/delta events, then exactly one error event
carrying the stable code and the message, as the final event — with no done
and none of the normal terminal tags anywhere. -/
theorem claim_C4_error_event (model rid mid cid : String) (t : Nat)
    (cs : List ChatStreamChunk) (m : Option String)
    (h : ∀ ch ∈ cs, chunkFinish ch = none) :
    ((handleStreamingRequest model rid mid cid t cs (some m)).map eventTag
      = [.created, .in_progress] ++ openTagsFor (deltaCount cs) ++ [.error])
    ∧ (handleStreamingRequest model rid mid cid t cs (some m)).getLast?
        = some (.error "stream_error" (m.getD "Unknown streaming error"))
    ∧ ((handleStreamingRequest model rid mid cid t cs (some m)).map eventTag).count
        EventTag.error = 1
    ∧ ((handleStreamingRequest model rid mid cid t cs (some m)).map eventTag).count
        EventTag.done = 0
    ∧ ((handleStreamingRequest model rid mid cid t cs (some m)).map eventTag).count
        EventTag.completed = 0
    ∧ ((handleStreamingRequest model rid mid cid t cs (some m)).map eventTag).count
        EventTag.output_text_done = 0
    ∧ ((handleStreamingRequest model rid mid cid t cs (some m)).map eventTag).count
        EventTag.content_part_done = 0
    ∧ ((handleStreamingRequest model rid mid cid t cs (some m)).map eventTag).count
        EventTag.output_item_done = 0 := by
  have pre := run_nofinish_notStarted cs (createStreamState model rid mid cid t) h rfl
  have hhandler : handleStreamingRequest model rid mid cid t cs (some m)
      = ([createResponseCreatedEvent (createStreamState model rid mid cid t),
          createResponseInProgressEvent (createStreamState model rid mid cid t)]
          ++ (processChunks cs (createStreamState model rid mid cid t)).1)
        ++ [.error "stream_error" (m.getD "Unknown streaming error")] := by
    simp [handleStreamingRequest]
  have htags : (handleStreamingRequest model rid mid cid t cs (some m)).map eventTag
      = [.created, .in_progress] ++ openTagsFor (deltaCount cs) ++ [.error] := by
    rw [hhandler]
    simp [pre.1, eventTag, createResponseCreatedEvent, createResponseInProgressEvent]
  refine ⟨htags, ?_, ?_, ?_, ?_, ?_, ?_, ?_⟩
  · rw [hhandler, List.getLast?_concat]
  all_goals
    rw [htags]
    simp [List.count_append, List.count_cons, count_openTagsFor]

/-- Witness for C4: transport failure after two delta chunks. -/
theorem claim_C4_error_event_witness :
    ((handleStreamingRequest "gpt-4o" "resp_1" "msg_1" "cp_1" 0
        [ { choices := [ { delta := { content := some "He" }, finish_reason := none } ] },
          { choices := [ { delta := { content := some "llo" }, finish_reason := none } ] } ]
        (some (some "Connection lost"))).map eventTag
      = [.created, .in_progress]
        ++ openTagsFor (deltaCount
            [ { choices := [ { delta := { content := some "He" }, finish_reason := none } ] },
              { choices := [ { delta := { content := some "llo" }, finish_reason := none } ] } ])
        ++ [.error]) :=
  (claim_C4_error_event "gpt-4o" "resp_1" "msg_1" "cp_1" 0
    [ { choices := [ { delta := { content := some "He" }, finish_reason := none } ] },
      { choices := [ { delta := { content := some "llo" }, finish_reason := none } ] } ]
    (some "Connection lost") (by decide)).1

/-- C10: a chunk with an empty choices sequence produces no events and leaves
the context untouched. -/
theorem claim_C10_empty_choices (chunk : ChatStreamChunk) (s : StreamState)
    (h : chunk.choices = []) : translateStreamChunk chunk s = ([], s) := by
  unfold translateStreamChunk
  simp [h]

/-- Witness for C10. -/
theorem claim_C10_empty_choices_witness :
    translateStreamChunk { choices := [] }
        (createStreamState "gpt-4o" "resp_1" "msg_1" "cp_1" 0)
      = ([], createStreamState "gpt-4o" "resp_1" "msg_1" "cp_1" 0) :=
  claim_C10_empty_choices { choices := [] }
    (createStreamState "gpt-4o" "resp_1" "msg_1" "cp_1" 0) rfl

theorem translateStreamChunk_events_ok (c : ChatStreamChunk) (s : StreamState)
    (hin : s.inputTokens = 0) (hout : s.outputTokens = 0) :
    ((translateStreamChunk c s).1.all
      (fun e => eventUsesIds s.responseId s.messageId e && terminalUsageZero e)) = true := by
  match hf : chunkFinish c with
  | none =>
    by_cases hce : chunkContentStr c = ""
    · rw [translateStreamChunk_noop c s hf hce]
      rfl
    · by_cases hs : s.hasStartedOutput
      · rw [translateStreamChunk_delta_started c s hf hce hs]
        simp [eventUsesIds, terminalUsageZero]
      · rw [translateStreamChunk_delta_notStarted c s hf hce (by simpa using hs)]
        simp [eventUsesIds, terminalUsageZero, openingEvents]
  | some r =>
    by_cases hs : s.hasStartedOutput
    · rw [translateStreamChunk_finish_started c s r hf hs]
      by_cases hce : chunkContentStr c = "" <;>
        simp [hce, eventUsesIds, terminalUsageZero, openingEvents, terminalEvents,
          finalResponse, hin, hout]
    · rw [translateStreamChunk_finish_notStarted c s r hf (by simpa using hs)]
      by_cases hce : chunkContentStr c = "" <;>
        simp [hce, eventUsesIds, terminalUsageZero, openingEvents, terminalEvents,
          finalResponse, hin, hout]

theorem processChunks_frame (cs : List ChatStreamChunk) (s : StreamState) :
    (processChunks cs s).2.responseId = s.responseId
    ∧ (processChunks cs s).2.messageId = s.messageId
    ∧ (processChunks cs s).2.contentPartId = s.contentPartId
    ∧ (processChunks cs s).2.model = s.model
    ∧ (processChunks cs s).2.createdAt = s.createdAt
    ∧ (processChunks cs s).2.inputTokens = s.inputTokens
    ∧ (processChunks cs s).2.outputTokens = s.outputTokens := by
  induction cs generalizing s with
  | nil => exact ⟨rfl, rfl, rfl, rfl, rfl, rfl, rfl⟩
  | cons c rest ih =>
    obtain ⟨a1, a2, a3, a4, a5, a6, a7⟩ := translateStreamChunk_frame c s
    obtain ⟨b1, b2, b3, b4, b5, b6, b7⟩ := ih (translateStreamChunk c s).2
    simp only [processChunks]
    exact ⟨b1.trans a1, b2.trans a2, b3.trans a3, b4.trans a4, b5.trans a5,
      b6.trans a6, b7.trans a7⟩

theorem processChunks_events_ok (cs : List ChatStreamChunk) (s : StreamState)
    (hin : s.inputTokens = 0) (hout : s.outputTokens = 0) :
    ((processChunks cs s).1.all
      (fun e => eventUsesIds s.responseId s.messageId e && terminalUsageZero e)) = true := by
  induction cs generalizing s with
  | nil => rfl
  | cons c rest ih =>
    obtain ⟨f1, f2, _, _, _, f6, f7⟩ := translateStreamChunk_frame c s
    have hstep := translateStreamChunk_events_ok c s hin hout
    have hrest := ih (translateStreamChunk c s).2 (f6.trans hin) (f7.trans hout)
    rw [f1, f2] at hrest
    simp [processChunks, List.all_append, hstep, hrest]

/-- C9: translateStreamChunk never touches the identifier, model, timestamp
or token-counter fields of the context; consequently every event of an
exchange run by the handler carries the identifiers created for that
exchange, and the terminal completed/done events always report zero usage
counters. -/
theorem claim_C9_frame_and_usage :
    (∀ (c : ChatStreamChunk) (s : StreamState),
      (translateStreamChunk c s).2.responseId = s.responseId
      ∧ (translateStreamChunk c s).2.messageId = s.messageId
      ∧ (translateStreamChunk c s).2.contentPartId = s.contentPartId
      ∧ (translateStreamChunk c s).2.model = s.model
      ∧ (translateStreamChunk c s).2.createdAt = s.createdAt
      ∧ (translateStreamChunk c s).2.inputTokens = s.inputTokens
      ∧ (translateStreamChunk c s).2.outputTokens = s.outputTokens)
    ∧ (∀ (model rid mid cid : String) (t : Nat) (chunks : List ChatStreamChunk),
      ((handleStreamingRequest model rid mid cid t chunks none).all
        (fun e => eventUsesIds rid mid e && terminalUsageZero e)) = true) := by
  refine ⟨translateStreamChunk_frame, ?_⟩
  intro model rid mid cid t chunks
  obtain ⟨p1, p2, _, _, _, p6, p7⟩ :=
    processChunks_frame chunks (createStreamState model rid mid cid t)
  have hbody := processChunks_events_ok chunks (createStreamState model rid mid cid t) rfl rfl
  have hsynth := translateStreamChunk_events_ok syntheticFinishChunk
    (processChunks chunks (createStreamState model rid mid cid t)).2
    (p6.trans rfl) (p7.trans rfl)
  rw [p1, p2] at hsynth
  have hrid : (createStreamState model rid mid cid t).responseId = rid := rfl
  have hmid : (createStreamState model rid mid cid t).messageId = mid := rfl
  rw [hrid, hmid] at hbody hsynth
  have hhandler : handleStreamingRequest model rid mid cid t chunks none
      = [createResponseCreatedEvent (createStreamState model rid mid cid t),
         createResponseInProgressEvent (createStreamState model rid mid cid t)]
        ++ (processChunks chunks (createStreamState model rid mid cid t)).1
        ++ (if !(processChunks chunks
              (createStreamState model rid mid cid t)).2.hasStartedOutput
            then (translateStreamChunk syntheticFinishChunk
                (processChunks chunks (createStreamState model rid mid cid t)).2).1
            else []) := by
    simp [handleStreamingRequest]
  rw [hhandler, List.all_append, List.all_append, hbody]
  have hstartev : ([createResponseCreatedEvent (createStreamState model rid mid cid t),
      createResponseInProgressEvent (createStreamState model rid mid cid t)].all
      (fun e => eventUsesIds rid mid e && terminalUsageZero e)) = true := by
    simp [createResponseCreatedEvent, createResponseInProgressEvent, createStreamState,
      eventUsesIds, terminalUsageZero]
  rw [hstartev]
  by_cases hst : (processChunks chunks
      (createStreamState model rid mid cid t)).2.hasStartedOutput <;>
    simp [hst, hsynth]

theorem mapFinishReason_failed_iff (fr : Option String) :
    mapFinishReasonToStatus fr = "failed" ↔ fr = some "content_filter" := by
  unfold mapFinishReasonToStatus
  split <;> simp_all

/-- C5 counterexample: translateResponse on a choice finishing with
content_filter yields status failed with no error envelope present. -/
theorem claim_C5_counterexample :
    (translateResponse
      { created := 1
        model := "openai/gpt-4o"
        choices := [ { message := { content := some "x" }
                       finish_reason := some "content_filter" } ]
        usage := none }
      (some "gpt-4o") "resp_1" "msg_1").toOption.map
        (fun resp => (resp.status, resp.error.isSome)) = some ("failed", false) := rfl

/-- C5 amended: every response from translateError is failed with the error
envelope present; translateResponse never attaches an error envelope, and its
status is failed exactly when the first choice finished with content_filter
— so the failed-iff-error invariant holds for translateResponse outputs only
on non-content_filter finishes. -/
theorem claim_C5_status_error_amended :
    (∀ (e : CaughtError) (rid : String) (t : Nat),
      (translateError e rid t).status = "failed"
      ∧ (translateError e rid t).error.isSome = true)
    ∧ (∀ (chat : ChatCompletionsResponse) (om : Option String) (rid mid : String)
        (out : ResponsesResponse),
        translateResponse chat om rid mid = Except.ok out →
          out.error = none
          ∧ (out.status = "failed" ↔ chatFirstFinish chat = some "content_filter")) := by
  constructor
  · intro e rid t
    cases e <;> exact ⟨rfl, rfl⟩
  · intro chat om rid mid out h
    unfold translateResponse at h
    match hch : chat.choices.head? with
    | none =>
      rw [hch] at h
      exact absurd h (by simp)
    | some choice =>
      rw [hch] at h
      simp only [Except.ok.injEq] at h
      subst h
      refine ⟨rfl, ?_⟩
      unfold chatFirstFinish
      rw [hch]
      simpa using mapFinishReason_failed_iff choice.finish_reason

/-- Witness for the amended C5: a generic error, and a stop-finishing
response with consistent usage. -/
theorem claim_C5_status_error_amended_witness :
    ((translateError CaughtError.other "resp_e" 3).status = "failed"
      ∧ (translateError CaughtError.other "resp_e" 3).error.isSome = true)
    ∧ (({ id := "resp_1", created_at := 5, model := "gpt-4o", status := "completed",
          output := [ { id := "msg_1", content := [ { text := "Hello" } ], status := none } ],
          usage := { input_tokens := 3, output_tokens := 4, total_tokens := 7 },
          error := none } : ResponsesResponse).error = none
        ∧ (({ id := "resp_1", created_at := 5, model := "gpt-4o", status := "completed",
              output := [ { id := "msg_1", content := [ { text := "Hello" } ], status := none } ],
              usage := { input_tokens := 3, output_tokens := 4, total_tokens := 7 },
              error := none } : ResponsesResponse).status = "failed"
            ↔ chatFirstFinish
                { created := 5
                  model := "openai/gpt-4o"
                  choices := [ { message := { content := some "Hello" }
                                 finish_reason := some "stop" } ]
                  usage := some { prompt_tokens := 3, completion_tokens := 4,
                                  total_tokens := 7 } } = some "content_filter")) :=
  ⟨claim_C5_status_error_amended.1 CaughtError.other "resp_e" 3,
   claim_C5_status_error_amended.2
     { created := 5
       model := "openai/gpt-4o"
       choices := [ { message := { content := some "Hello" }
                      finish_reason := some "stop" } ]
       usage := some { prompt_tokens := 3, completion_tokens := 4, total_tokens := 7 } }
     (some "gpt-4o") "resp_1" "msg_1"
     { id := "resp_1", created_at := 5, model := "gpt-4o", status := "completed",
       output := [ { id := "msg_1", content := [ { text := "Hello" } ], status := none } ],
       usage := { input_tokens := 3, output_tokens := 4, total_tokens := 7 },
       error := none }
     rfl⟩

theorem guard_object (v : JsonVal) :
    (!jsTruthy v || !jsTypeofObject v) = !isObjOrArr v := by
  cases v <;> simp [jsTruthy, jsTypeofObject, isObjOrArr]

theorem guard_model (o : Option JsonVal) :
    (!jsTruthyOpt o || !isStringOpt o)
      = !(match o with | some (.str m) => m != "" | _ => false) := by
  match o with
  | none => simp [jsTruthyOpt, isStringOpt]
  | some w => cases w <;> simp [jsTruthyOpt, isStringOpt, jsTruthy]

/-- C6 counterexample: a payload whose model is present and is a string (the
empty string) and whose input is a string is still rejected, because the
source guards model with a truthiness test that an empty string fails. -/
theorem claim_C6_counterexample :
    validateRequest (JsonVal.obj [("model", .str ""), ("input", .str "Say hi")])
      = Except.error "The model field is required and must be a string"
    ∧ jsGet (JsonVal.obj [("model", .str ""), ("input", .str "Say hi")]) "model"
        = some (.str "")
    ∧ jsGet (JsonVal.obj [("model", .str ""), ("input", .str "Say hi")]) "input"
        = some (.str "Say hi") :=
  ⟨rfl, rfl, rfl⟩

/-- C6 amended: validateRequest succeeds — returning the payload unchanged —
exactly when the payload is an object or array, its model property is a
non-empty string, and its input property is a string or an array; it fails
with InvalidRequest in every other case (so also when model is the empty
string). -/
theorem claim_C6_validate_amended (v : JsonVal) :
    (validateRequest v = Except.ok v
      ↔ (isObjOrArr v = true ∧ modelFieldOk v = true ∧ inputFieldOk v = true))
    ∧ (∀ w, validateRequest v = Except.ok w → w = v) := by
  unfold validateRequest
  rw [guard_object]
  by_cases h1 : isObjOrArr v
  · rw [show (jsGet v "model") = jsGet v "model" from rfl] at *
    have h2eq := guard_model (jsGet v "model")
    have hmodel : (!jsTruthyOpt (jsGet v "model") || !isStringOpt (jsGet v "model"))
        = !modelFieldOk v := by
      rw [h2eq]
      rfl
    rw [hmodel]
    by_cases h2 : modelFieldOk v
    · simp only [h1, h2, Bool.not_true, Bool.false_eq_true, if_false]
      unfold inputFieldOk
      match hi : jsGet v "input" with
      | none => simp [isMissingOrNull, isStringOpt, isArrayOpt, h1, h2]
      | some .null => simp [isMissingOrNull, isStringOpt, isArrayOpt, h1, h2]
      | some (.str s) => simp [isMissingOrNull, isStringOpt, isArrayOpt, h1, h2]
      | some (.num n) => simp [isMissingOrNull, isStringOpt, isArrayOpt, h1, h2]
      | some (.bool b) => simp [isMissingOrNull, isStringOpt, isArrayOpt, h1, h2]
      | some (.arr xs) => simp [isMissingOrNull, isStringOpt, isArrayOpt, h1, h2]
      | some (.obj fs) => simp [isMissingOrNull, isStringOpt, isArrayOpt, h1, h2]
    · simp [h1, h2]
  · simp [h1]

/-- Witness for the amended C6: a well-formed payload validates to itself. -/
theorem claim_C6_validate_amended_witness :
    validateRequest
        (JsonVal.obj [("model", .str "gpt-4o"), ("input", .str "Say hi")])
      = Except.ok (JsonVal.obj [("model", .str "gpt-4o"), ("input", .str "Say hi")]) :=
  (claim_C6_validate_amended
      (JsonVal.obj [("model", .str "gpt-4o"), ("input", .str "Say hi")])).1.mpr
    ⟨rfl, rfl, rfl⟩

/-- C7: translateRequest omits the tools field exactly when the
function-capable subset of the declared tools is empty (in particular when
the list is empty or absent); otherwise it carries the function-capable
tools converted 1:1 (name, description, parameter schema) in their original
order, with other capability types dropped. -/
theorem claim_C7_tools (r : ResponsesAPIRequest) :
    ((translateRequest r).tools = none
      ↔ (r.tools.getD []).filter functionCapable = [])
    ∧ (∀ ts, (translateRequest r).tools = some ts →
        ts = ((r.tools.getD []).filter functionCapable).filterMap
          (fun tool => tool.function.map (fun f =>
            ({ function := { name := f.name, description := f.description,
                             parameters := f.parameters } } : ChatTool)))) := by
  match hrt : r.tools with
  | none => simp [translateRequest, hrt]
  | some ts =>
    by_cases hlen : ts.length > 0
    · by_cases hemp : (ts.filter functionCapable).isEmpty
      · have hnil : ts.filter functionCapable = [] := by
          simpa [List.isEmpty_iff] using hemp
        simp [translateRequest, hrt, hlen, convertTools, hemp, hnil]
      · have hne : ts.filter functionCapable ≠ [] := by
          simpa [List.isEmpty_iff] using hemp
        simp [translateRequest, hrt, hlen, convertTools, hemp, hne]
    · have hnil : ts = [] := by
        simpa using List.length_eq_zero.mp (by omega)
      subst hnil
      simp [translateRequest, hrt]

/-- Witness for C7: the unsupported web_search_preview tool is dropped and the
single function tool named lookup survives the 1:1 conversion. -/
theorem claim_C7_tools_witness :
    [({ function := { name := "lookup", description := none, parameters := none } }
        : ChatTool)]
      = (((some [ ({ type := "web_search_preview", function := none } : ResponsesTool),
                  ({ type := "function",
                     function := some { name := "lookup", description := none,
                                        parameters := none } } : ResponsesTool) ]
          : Option (List ResponsesTool)).getD []).filter functionCapable).filterMap
          (fun tool => tool.function.map (fun f =>
            ({ function := { name := f.name, description := f.description,
                             parameters := f.parameters } } : ChatTool))) :=
  (claim_C7_tools
    { model := "gpt-4o", input := .str "Say hi", instructions := none,
      temperature := none, max_output_tokens := none, top_p := none,
      tools := some [ { type := "web_search_preview", function := none },
                      { type := "function",
                        function := some { name := "lookup", description := none,
                                           parameters := none } } ],
      tool_choice := none, stream := none }).2
    [ { function := { name := "lookup", description := none, parameters := none } } ] rfl

/-- C8 counterexample: instructions set to the empty string is "set", yet the
translated messages carry no leading system message — the source guards the
system message with a truthiness test. -/
theorem claim_C8_counterexample :
    (translateRequest
      { model := "gpt-4o", input := .str "Say hi", instructions := some "",
        temperature := none, max_output_tokens := none, top_p := none,
        tools := none, tool_choice := none, stream := none }).messages
      = [ { role := "user", content := .str "Say hi" } ] := rfl

/-- C8 amended: for a string input the translated messages are exactly one
user message carrying the input, preceded by a system message carrying the
instructions iff instructions was set to a non-empty string. -/
theorem claim_C8_string_input_amended (r : ResponsesAPIRequest) (s : String)
    (h : r.input = RequestInput.str s) :
    (∀ i, r.instructions = some i → i ≠ "" →
        (translateRequest r).messages
          = [ { role := "system", content := .str i },
              { role := "user", content := .str s } ])
    ∧ ((r.instructions = none ∨ r.instructions = some "") →
        (translateRequest r).messages = [ { role := "user", content := .str s } ]) := by
  constructor
  · intro i hi hne
    simp [translateRequest, convertInputToMessages, h, hi, hne]
  · intro hcase
    rcases hcase with hn | he
    · simp [translateRequest, convertInputToMessages, h, hn]
    · simp [translateRequest, convertInputToMessages, h, he]

/-- Witness for the amended C8: non-empty instructions produce the leading
system message. -/
theorem claim_C8_string_input_amended_witness :
    (translateRequest
      { model := "gpt-4o", input := .str "Say hi", instructions := some "Be brief",
        temperature := none, max_output_tokens := none, top_p := none,
        tools := none, tool_choice := none, stream := none }).messages
      = [ { role := "system", content := .str "Be brief" },
          { role := "user", content := .str "Say hi" } ] :=
  (claim_C8_string_input_amended
    { model := "gpt-4o", input := .str "Say hi", instructions := some "Be brief",
      temperature := none, max_output_tokens := none, top_p := none,
      tools := none, tool_choice := none, stream := none }
    "Say hi" rfl).1 "Be brief" rfl (by decide)

end CodexProxy
